import Mathlib

/-!
Verification of the linkerd2 policy-controller process supervisor
(`policy-controller/src/main.rs`).

The development shallowly embeds:

* the `tokio::select!` race in `main` and its per-branch classification of
  joined task outcomes (lines 92-110 of `main.rs`);
* the `IpNets` comma-separated CIDR-list parser (`IpNets::from_str`,
  lines 116-124), with the per-entry CIDR parser modelled from the spec
  (the `ipnet` crate is an external dependency);
* a small transition system for the drain coordinator together with the
  two-phase close of the gRPC server (`grpc`, lines 126-146) and the
  `shutdown` routine (lines 148-159), with the drain / serve contracts
  modelled from the spec;
* the readiness watch channel handed to the indexer (lines 61-75), with
  the indexer's write behaviour modelled from the spec.
-/

namespace LinkerdPolicy

/-- Result of awaiting a spawned tokio task (`JoinHandle<α>`): either the
task completed with a value of type `α`, or joining failed with a
`JoinError`; `err c` records `is_cancelled() = c` for that error. -/
inductive JoinResult (α : Type) where
  | ok : α → JoinResult α
  | err : Bool → JoinResult α
deriving DecidableEq, Repr

/-- Cause carried by a fatal outcome of the supervisor: either the error
value produced by the task itself, or a join error (`joinErr c` with
`c = is_cancelled()`). -/
inductive Cause (ε : Type) where
  | taskErr : ε → Cause ε
  | joinErr : Bool → Cause ε
deriving DecidableEq, Repr

variable {ε : Type}

/-- Branch `res = grpc` of the select in `main` (`main.rs:94-98`):
`Ok(res) => res.context("grpc server failed")` (which leaves an `Ok(())`
payload untouched), `Err(e) if e.is_cancelled() => Ok(())`,
`Err(e) => Err(e).context("grpc server panicked")`. -/
def grpcBranch (res : JoinResult (Except ε Unit)) : Except (String × Cause ε) Unit :=
  match res with
  | .ok (.ok _) => .ok ()
  | .ok (.error e) => .error ("grpc server failed", .taskErr e)
  | .err true => .ok ()
  | .err false => .error ("grpc server panicked", .joinErr false)

/-- Branch `res = index_task` of the select in `main` (`main.rs:99-103`):
`Ok(e) => Err(e).context("indexer failed")` (the joined value is itself an
error payload), `Err(e) if e.is_cancelled() => Ok(())`,
`Err(e) => Err(e).context("indexer panicked")`. -/
def indexBranch (res : JoinResult ε) : Except (String × Cause ε) Unit :=
  match res with
  | .ok e => .error ("indexer failed", .taskErr e)
  | .err true => .ok ()
  | .err false => .error ("indexer panicked", .joinErr false)

/-- Branch `res = admin` of the select in `main` (`main.rs:104-108`):
`Ok(res) => res.context("admin server failed")` (which leaves an `Ok(())`
payload untouched), `Err(e) if e.is_cancelled() => Ok(())`,
`Err(e) => Err(e).context("admin server panicked")`. -/
def adminBranch (res : JoinResult (Except ε Unit)) : Except (String × Cause ε) Unit :=
  match res with
  | .ok (.ok _) => .ok ()
  | .ok (.error e) => .error ("admin server failed", .taskErr e)
  | .err true => .ok ()
  | .err false => .error ("admin server panicked", .joinErr false)

/-- Branch `res = admission` of the select in `main` (`main.rs:109`):
`res.context("admission server failed")`, where `res : Result<(), JoinError>`.
`context` maps `Ok(())` to `Ok(())` and wraps any `Err` — whether the join
error is a cancellation or a panic — with the context string. -/
def admissionBranch (res : JoinResult Unit) : Except (String × Cause ε) Unit :=
  match res with
  | .ok _ => .ok ()
  | .err c => .error ("admission server failed", .joinErr c)

/-- Winner of the five-way `tokio::select!` race in `main` (`main.rs:92-110`):
the `shutdown(drain_tx)` future, or one of the four joined tasks, each with
its join result. `ε` is the error type of the task payloads
(`anyhow::Error` in the source). -/
inductive RaceWinner (ε : Type) where
  | shutdownDone : RaceWinner ε
  | grpcRes : JoinResult (Except ε Unit) → RaceWinner ε
  | indexRes : JoinResult ε → RaceWinner ε
  | adminRes : JoinResult (Except ε Unit) → RaceWinner ε
  | admissionRes : JoinResult Unit → RaceWinner ε

/-- Outcome of `main` as a function of the winning select branch
(`main.rs:92-110`). The process exits with code 0 exactly when this is
`Except.ok ()`, and non-zero with the contextual message otherwise. -/
def mainSelect : RaceWinner ε → Except (String × Cause ε) Unit
  | .shutdownDone => .ok ()
  | .grpcRes r => grpcBranch r
  | .indexRes r => indexBranch r
  | .adminRes r => adminBranch r
  | .admissionRes r => admissionBranch r

/-- Process exit classification: `true` iff `main` returns `Ok(())`
(exit code 0). -/
def exitsZero (w : RaceWinner ε) : Bool :=
  (mainSelect w).isOk

/-- An IPv4 CIDR network entry: four octets and a network length. -/
structure IpNet where
  o1 : Nat
  o2 : Nat
  o3 : Nat
  o4 : Nat
  netLen : Nat
deriving DecidableEq, Repr

/-- Rust's `str::split(sep)` for a single separator character, over the
character list of the string: splits at every occurrence of `sep`,
keeping empty segments; the empty string yields the single segment `[]`.
There is always exactly one more segment than separator occurrences. -/
def splitChar (sep : Char) : List Char → List (List Char)
  | [] => [[]]
  | c :: rest =>
    if c = sep then [] :: splitChar sep rest
    else
      match splitChar sep rest with
      | [] => [[c]]
      | x :: xs => (c :: x) :: xs

/-- Value of a nonempty all-digit decimal segment; `none` otherwise. -/
def decDigits (cs : List Char) : Option Nat :=
  if cs = [] then none
  else if cs.all Char.isDigit then
    some (cs.foldl (fun a c => a * 10 + (c.toNat - 48)) 0)
  else none

/-- Modelled from the spec: one dotted-quad octet, as accepted by the
address parser behind the external `ipnet` crate's CIDR entry parsing —
a decimal number `0..=255` with no leading zeros. The crate itself is not
part of this repository's source. -/
def parseOctet (cs : List Char) : Option Nat :=
  match decDigits cs with
  | none => none
  | some n =>
    if 1 < cs.length ∧ cs.headD ' ' = '0' then none
    else if n ≤ 255 then some n else none

/-- Modelled from the spec: the network length of an IPv4 CIDR entry, a
decimal number that must not exceed the 32 address bits. -/
def parseNetLen (cs : List Char) : Option Nat :=
  match decDigits cs with
  | none => none
  | some n => if n ≤ 32 then some n else none

/-- Modelled from the spec: a single CIDR network entry
(`address/length`, e.g. `10.0.0.0/8`), each entry independently
validated; the entry parser itself lives in the external `ipnet` crate
(`n.parse()` at `main.rs:120`), restricted here to IPv4 entries. -/
def parseIpNet (cs : List Char) : Option IpNet :=
  match splitChar '/' cs with
  | [addr, len] =>
    match splitChar '.' addr with
    | [s1, s2, s3, s4] =>
      match parseOctet s1, parseOctet s2, parseOctet s3, parseOctet s4, parseNetLen len with
      | some a, some b, some c, some d, some p => some ⟨a, b, c, d, p⟩
      | _, _, _, _, _ => none
    | _ => none
  | _ => none

/-- The `collect::<Result<Vec<IpNet>>>()` step of `IpNets::from_str`
(`main.rs:119-122`): parse each segment left to right, aborting the whole
list at the first invalid entry. -/
def collectNets : List (List Char) → Option (List IpNet)
  | [] => some []
  | x :: xs =>
    match parseIpNet x, collectNets xs with
    | some n, some ns => some (n :: ns)
    | _, _ => none

/-- `IpNets::from_str` (`main.rs:116-124`): split the configuration value
on commas and validate every segment as a CIDR entry, rejecting the whole
list if any segment is invalid. -/
def IpNets.from_str (s : String) : Option (List IpNet) :=
  collectNets (splitChar ',' s.data)

/-- Rust's `split(',')` (embedded as `splitChar ','`) always yields at
least one segment, even on the empty string. -/
theorem splitChar_ne_nil (sep : Char) (cs : List Char) : splitChar sep cs ≠ [] := by
  induction cs with
  | nil => simp [splitChar]
  | cons c rest ih =>
    simp only [splitChar]
    split
    · simp
    · cases h : splitChar sep rest <;> simp

theorem collectNets_isSome (xs : List (List Char)) :
    (collectNets xs).isSome = true ↔ ∀ x ∈ xs, (parseIpNet x).isSome = true := by
  induction xs with
  | nil => simp [collectNets]
  | cons x xs ih =>
    simp only [collectNets, List.mem_cons]
    cases hx : parseIpNet x <;> cases hxs : collectNets xs <;> simp_all

theorem collectNets_some (xs : List (List Char)) (l : List IpNet)
    (h : collectNets xs = some l) :
    l.length = xs.length ∧
      ∀ i (h1 : i < xs.length) (h2 : i < l.length),
        parseIpNet (xs.get ⟨i, h1⟩) = some (l.get ⟨i, h2⟩) := by
  induction xs generalizing l with
  | nil =>
    simp [collectNets] at h
    subst h
    simp
  | cons x xs ih =>
    simp only [collectNets] at h
    cases hx : parseIpNet x <;> rw [hx] at h
    · exact absurd h (by simp)
    · cases hxs : collectNets xs <;> rw [hxs] at h
      · exact absurd h (by simp)
      · rename_i n ns
        obtain ⟨hlen, hidx⟩ := ih ns hxs
        cases h
        refine ⟨by simp [hlen], ?_⟩
        intro i h1 h2
        cases i with
        | zero => simpa using hx
        | succ k =>
          simpa using hidx k (by simpa using h1) (by simpa using h2)

/-- C1 (counterexample): the claim says every resolution of the
AdmissionService task — including one carrying the success value — is
classified fatal with exit non-zero. On the code, `res.context(...)` at
`main.rs:109` leaves `Ok(())` untouched, so a normal return of the
admission task resolves the select with `Ok(())` and the process exits
zero. -/
theorem C1_counterexample :
    mainSelect (RaceWinner.admissionRes (ε := Unit) (JoinResult.ok ())) = Except.ok () ∧
    exitsZero (RaceWinner.admissionRes (ε := Unit) (JoinResult.ok ())) = true :=
  ⟨rfl, rfl⟩

/-- C1 (amended): if the AdmissionService task resolves via an internal
fault — a join error, whether or not classified as cancellation — the
Supervisor classifies the outcome as fatal with "admission server failed"
context and the process exits non-zero; a resolution carrying the
(unit) success value instead yields a clean exit. -/
theorem C1_admission_fault_fatal (ε : Type) :
    (∀ c : Bool,
      mainSelect (RaceWinner.admissionRes (ε := ε) (JoinResult.err c)) =
        Except.error ("admission server failed", Cause.joinErr c) ∧
      exitsZero (RaceWinner.admissionRes (ε := ε) (JoinResult.err c)) = false) ∧
    mainSelect (RaceWinner.admissionRes (ε := ε) (JoinResult.ok ())) = Except.ok () :=
  ⟨fun c => ⟨rfl, by cases c <;> rfl⟩, rfl⟩

/-- C2 (counterexample): the claim says a clean success return of the
GrpcService or AdminService task is classified fatal. On the code,
`res.context(...)` at `main.rs:95` and `main.rs:105` leaves an inner
`Ok(())` untouched, so a clean return of either task resolves the select
with `Ok(())` and the process exits zero. -/
theorem C2_counterexample :
    mainSelect (RaceWinner.grpcRes (ε := Unit) (JoinResult.ok (Except.ok ()))) =
      Except.ok () ∧
    mainSelect (RaceWinner.adminRes (ε := Unit) (JoinResult.ok (Except.ok ()))) =
      Except.ok () ∧
    exitsZero (RaceWinner.grpcRes (ε := Unit) (JoinResult.ok (Except.ok ()))) = true ∧
    exitsZero (RaceWinner.adminRes (ε := Unit) (JoinResult.ok (Except.ok ()))) = true :=
  ⟨rfl, rfl, rfl, rfl⟩

/-- C2 (amended): a normal resolution of the GrpcService or AdminService
task carrying an error payload is classified fatal with
"grpc server failed" / "admin server failed" context (exit non-zero); a
normal resolution carrying the success value yields a clean exit. -/
theorem C2_normal_resolution (ε : Type) :
    (∀ e : ε,
      mainSelect (RaceWinner.grpcRes (JoinResult.ok (Except.error e))) =
        Except.error ("grpc server failed", Cause.taskErr e)) ∧
    (∀ e : ε,
      mainSelect (RaceWinner.adminRes (JoinResult.ok (Except.error e))) =
        Except.error ("admin server failed", Cause.taskErr e)) ∧
    mainSelect (RaceWinner.grpcRes (ε := ε) (JoinResult.ok (Except.ok ()))) =
      Except.ok () ∧
    mainSelect (RaceWinner.adminRes (ε := ε) (JoinResult.ok (Except.ok ()))) =
      Except.ok () :=
  ⟨fun _ => rfl, fun _ => rfl, rfl, rfl⟩

/-- C3: the joined value of the IndexerTask is itself an error payload and
is always classified fatal with "indexer failed" context (`main.rs:100`);
and for every join result other than an expected cancellation — the only
join outcome possible while the process is already tearing down — the
indexer branch never resolves the select with a success classification. -/
theorem C3_indexer_always_fatal (ε : Type) :
    (∀ e : ε,
      mainSelect (RaceWinner.indexRes (JoinResult.ok e)) =
        Except.error ("indexer failed", Cause.taskErr e)) ∧
    ∀ r : JoinResult ε, r ≠ JoinResult.err true →
      exitsZero (RaceWinner.indexRes r) = false := by
  refine ⟨fun _ => rfl, ?_⟩
  intro r hr
  match r with
  | .ok e => rfl
  | .err true => exact absurd rfl hr
  | .err false => rfl

/-- C3 witness: the indexer branch at two concrete non-cancellation join
results. -/
theorem C3_witness :
    mainSelect (RaceWinner.indexRes (JoinResult.ok ())) =
      Except.error ("indexer failed", Cause.taskErr ()) ∧
    exitsZero (RaceWinner.indexRes (ε := Unit) (JoinResult.err false)) = false :=
  ⟨(C3_indexer_always_fatal Unit).1 (),
   (C3_indexer_always_fatal Unit).2 (JoinResult.err false) (by decide)⟩

/-- C6: a join fault of the GrpcService, IndexerTask or AdminService task
classified as cancellation resolves the select with success (`main.rs:96`,
`main.rs:101`, `main.rs:106`), while every other join fault of those
branches is fatal with the corresponding "… panicked" context. -/
theorem C6_cancellation_success (ε : Type) :
    mainSelect (RaceWinner.grpcRes (ε := ε) (JoinResult.err true)) = Except.ok () ∧
    mainSelect (RaceWinner.indexRes (ε := ε) (JoinResult.err true)) = Except.ok () ∧
    mainSelect (RaceWinner.adminRes (ε := ε) (JoinResult.err true)) = Except.ok () ∧
    mainSelect (RaceWinner.grpcRes (ε := ε) (JoinResult.err false)) =
      Except.error ("grpc server panicked", Cause.joinErr false) ∧
    mainSelect (RaceWinner.indexRes (ε := ε) (JoinResult.err false)) =
      Except.error ("indexer panicked", Cause.joinErr false) ∧
    mainSelect (RaceWinner.adminRes (ε := ε) (JoinResult.err false)) =
      Except.error ("admin server panicked", Cause.joinErr false) :=
  ⟨rfl, rfl, rfl, rfl, rfl, rfl⟩

/-- C9: cancellation handling is asymmetric — a cancelled join fault on
the admission branch is fatal with "admission server failed" context
(`main.rs:109` has no `is_cancelled` guard), whereas the same fault on
the grpc, indexer or admin branch resolves the select with success. -/
theorem C9_cancellation_asymmetry (ε : Type) :
    mainSelect (RaceWinner.admissionRes (ε := ε) (JoinResult.err true)) =
      Except.error ("admission server failed", Cause.joinErr true) ∧
    exitsZero (RaceWinner.admissionRes (ε := ε) (JoinResult.err true)) = false ∧
    mainSelect (RaceWinner.grpcRes (ε := ε) (JoinResult.err true)) = Except.ok () ∧
    mainSelect (RaceWinner.indexRes (ε := ε) (JoinResult.err true)) = Except.ok () ∧
    mainSelect (RaceWinner.adminRes (ε := ε) (JoinResult.err true)) = Except.ok () :=
  ⟨rfl, rfl, rfl, rfl, rfl⟩

/-- C7: parsing `"10.0.0.0/8,192.168.0.0/16"` succeeds with exactly those
two entries in order; parsing `"10.0.0.0/8,bad"` rejects the whole list
with no result; and in general the list is rejected whenever any
comma-separated segment is an invalid entry. -/
theorem C7_network_list_parsing :
    IpNets.from_str "10.0.0.0/8,192.168.0.0/16" =
      some [⟨10, 0, 0, 0, 8⟩, ⟨192, 168, 0, 0, 16⟩] ∧
    IpNets.from_str "10.0.0.0/8,bad" = none ∧
    ∀ s : String, (∃ seg ∈ splitChar ',' s.data, parseIpNet seg = none) →
      IpNets.from_str s = none := by
  refine ⟨by decide, by decide, ?_⟩
  rintro s ⟨seg, hmem, hseg⟩
  unfold IpNets.from_str
  cases h : collectNets (splitChar ',' s.data) with
  | none => rfl
  | some l =>
    have hall := (collectNets_isSome _).mp (by simp [h]) seg hmem
    simp [hseg] at hall

/-- C7 witness: the rejection clause applied to the concrete invalid
list. -/
theorem C7_witness : IpNets.from_str "10.0.0.0/8,bad" = none :=
  C7_network_list_parsing.2.2 "10.0.0.0/8,bad" ⟨"bad".data, by decide, by decide⟩

/-- C10: parsing the cluster-network list succeeds iff every
comma-separated segment is a valid CIDR entry, and a successful parse
yields exactly one entry per segment, in the segments' order, and never
the empty list. -/
theorem C10_parse_characterisation (s : String) :
    ((IpNets.from_str s).isSome = true ↔
      ∀ seg ∈ splitChar ',' s.data, (parseIpNet seg).isSome = true) ∧
    ∀ l, IpNets.from_str s = some l →
      l.length = (splitChar ',' s.data).length ∧
      (∀ i (h1 : i < (splitChar ',' s.data).length) (h2 : i < l.length),
        parseIpNet ((splitChar ',' s.data).get ⟨i, h1⟩) = some (l.get ⟨i, h2⟩)) ∧
      l ≠ [] := by
  refine ⟨collectNets_isSome _, ?_⟩
  intro l hl
  obtain ⟨hlen, hidx⟩ := collectNets_some _ _ hl
  refine ⟨hlen, hidx, ?_⟩
  intro hnil
  subst hnil
  have hne := splitChar_ne_nil ',' s.data
  simp at hlen
  exact hne (List.eq_nil_of_length_eq_zero hlen.symm)

/-- C10 witness: the characterisation applied to a concrete single-entry
list. -/
theorem C10_witness :
    (IpNets.from_str "10.0.0.0/8").isSome = true ∧
    ([(⟨10, 0, 0, 0, 8⟩ : IpNet)] : List IpNet) ≠ [] := by
  have h := C10_parse_characterisation "10.0.0.0/8"
  exact ⟨h.1.mpr (by decide), (h.2 [⟨10, 0, 0, 0, 8⟩] (by decide)).2.2⟩

/-- Phase of the gRPC server's two-phase close (`grpc`, `main.rs:126-146`):
`listening` while `serve` accepts connections, `closing` after the drain
signal is observed and `close_tx` is sent (listener closed, in-flight
requests still running), `drained` once `srv` has completed under
`release_after`. -/
inductive GrpcPhase where
  | listening
  | closing
  | drained
deriving DecidableEq, Repr

/-- Modelled from the spec: joint state of the `shutdown` routine
(`main.rs:148-159`), the drain coordinator (the external `drain` crate:
one Signal owner, the gRPC watch holder), and the gRPC server's two-phase
close. The semantics of `drain()` (signal, then wait for every release
handle) and of `serve(addr, close_rx)` (stop accepting on the close
signal, finish in-flight requests) are not in this repository's source
and follow the spec's contracts. -/
structure SysState where
  sigReceived : Bool
  drainCalled : Bool
  inflight : Nat
  phase : GrpcPhase
  released : Bool
  drainReturned : Bool
  exited : Bool
deriving DecidableEq, Repr

/-- Initial state: no OS signal, drain not yet fired, no in-flight
requests, gRPC server listening. -/
def initState : SysState :=
  ⟨false, false, 0, .listening, false, false, false⟩

/-- Modelled from the spec: one step of the shutdown protocol.
`acceptReq` / `finishReq` are request events at the gRPC server;
`recvSig` is the OS trigger observed by `shutdown`; `callDrain` is
`drain.drain()` firing the signal; `closeListener` is the gRPC task
observing `drain.signaled()` and sending `close_tx` (`main.rs:140-141`);
`finishDrainWork` is `srv` completing with no in-flight work under
`release_after` (`main.rs:142`); `drainReturn` is `drain()` resolving
once the release handle has completed; `exitClean` is the select's
shutdown branch resolving `Ok(())` (`main.rs:93`). -/
inductive Step : SysState → SysState → Prop where
  | acceptReq (s : SysState) :
      s.phase = .listening →
      Step s { s with inflight := s.inflight + 1 }
  | finishReq (s : SysState) (n : Nat) :
      s.inflight = n + 1 →
      Step s { s with inflight := n }
  | recvSig (s : SysState) :
      Step s { s with sigReceived := true }
  | callDrain (s : SysState) :
      s.sigReceived = true →
      s.drainCalled = false →
      Step s { s with drainCalled := true }
  | closeListener (s : SysState) :
      s.drainCalled = true →
      s.phase = .listening →
      Step s { s with phase := .closing }
  | finishDrainWork (s : SysState) :
      s.phase = .closing →
      s.inflight = 0 →
      Step s { s with phase := .drained, released := true }
  | drainReturn (s : SysState) :
      s.drainCalled = true →
      s.released = true →
      Step s { s with drainReturned := true }
  | exitClean (s : SysState) :
      s.drainReturned = true →
      Step s { s with exited := true }

/-- States reachable from `initState` under the shutdown protocol. -/
inductive Reach : SysState → Prop where
  | init : Reach initState
  | step {s t : SysState} : Reach s → Step s t → Reach t

/-- Inductive invariant of the shutdown protocol. -/
def Inv (s : SysState) : Prop :=
  (s.released = true → s.phase = .drained) ∧
  (s.phase = .drained → s.inflight = 0 ∧ s.released = true) ∧
  (s.phase ≠ .listening → s.drainCalled = true) ∧
  (s.drainCalled = true → s.sigReceived = true) ∧
  (s.drainReturned = true → s.released = true) ∧
  (s.exited = true → s.drainReturned = true)

theorem inv_init : Inv initState := by
  refine ⟨?_, ?_, ?_, ?_, ?_, ?_⟩ <;> intro h <;> simp [initState] at h

theorem inv_step {s t : SysState} (hs : Inv s) (h : Step s t) : Inv t := by
  obtain ⟨h1, h2, h3, h4, h5, h6⟩ := hs
  cases h <;>
    refine ⟨?_, ?_, ?_, ?_, ?_, ?_⟩ <;> intro hh <;> simp_all

theorem inv_reach {s : SysState} (h : Reach s) : Inv s := by
  induction h with
  | init => exact inv_init
  | step _ hstep ih => exact inv_step ih hstep

/-- C4: in every reachable state, once the gRPC release handle has
completed the server has passed through listener close into the drained
phase with zero in-flight requests; and `drain()` has not returned unless
the release handle completed with all in-flight work finished. -/
theorem C4_two_phase_close (s : SysState) (h : Reach s) :
    (s.released = true →
      s.phase = GrpcPhase.drained ∧ s.inflight = 0 ∧ s.drainCalled = true) ∧
    (s.drainReturned = true → s.released = true ∧ s.inflight = 0) := by
  obtain ⟨h1, h2, h3, h4, h5, h6⟩ := inv_reach h
  constructor
  · intro hr
    have hd := h1 hr
    refine ⟨hd, (h2 hd).1, h3 (by simp [hd])⟩
  · intro hdr
    have hr := h5 hdr
    exact ⟨hr, (h2 (h1 hr)).1⟩

/-- C5: the select's shutdown branch resolves `Ok(())` (exit code 0,
`main.rs:93`); and in every reachable state the process has exited via
that branch only after `drain()` returned, which itself requires the
drain signal to have been fired after the OS trigger was received. -/
theorem C5_clean_shutdown (ε : Type) (s : SysState) (h : Reach s) :
    mainSelect (RaceWinner.shutdownDone (ε := ε)) = Except.ok () ∧
    (s.exited = true →
      s.drainReturned = true ∧ s.drainCalled = true ∧ s.sigReceived = true) := by
  obtain ⟨h1, h2, h3, h4, h5, h6⟩ := inv_reach h
  refine ⟨rfl, ?_⟩
  intro hx
  have hdr := h6 hx
  have hdc : s.drainCalled = true := by
    have hr := h5 hdr
    exact h3 (by simp [h1 hr])
  exact ⟨hdr, hdc, h4 hdc⟩

/-- Concrete run of the shutdown protocol: signal, drain, listener close,
drain work finished. -/
def sDrained : SysState :=
  ⟨true, true, 0, .drained, true, false, false⟩

/-- Concrete run extended to `drain()` returning and the process
exiting. -/
def sExited : SysState :=
  ⟨true, true, 0, .drained, true, true, true⟩

theorem reach_sDrained : Reach sDrained := by
  have r1 : Reach { initState with sigReceived := true } :=
    Reach.step Reach.init (Step.recvSig initState)
  have r2 : Reach { initState with sigReceived := true, drainCalled := true } :=
    Reach.step r1 (Step.callDrain _ rfl rfl)
  have r3 : Reach
      { initState with sigReceived := true, drainCalled := true, phase := .closing } :=
    Reach.step r2 (Step.closeListener _ rfl rfl)
  exact Reach.step r3 (Step.finishDrainWork _ rfl rfl)

theorem reach_sExited : Reach sExited := by
  have r4 : Reach { sDrained with drainReturned := true } :=
    Reach.step reach_sDrained (Step.drainReturn _ rfl rfl)
  exact Reach.step r4 (Step.exitClean _ rfl)

/-- C4 witness: the two-phase-close theorem applied to the concrete
drained state. -/
theorem C4_witness :
    sDrained.phase = GrpcPhase.drained ∧ sDrained.inflight = 0 ∧
      sDrained.drainCalled = true :=
  (C4_two_phase_close sDrained reach_sDrained).1 rfl

/-- C5 witness: the clean-shutdown theorem applied to the concrete exited
state. -/
theorem C5_witness :
    mainSelect (RaceWinner.shutdownDone (ε := Unit)) = Except.ok () ∧
    (sExited.drainReturned = true ∧ sExited.drainCalled = true ∧
      sExited.sigReceived = true) :=
  ⟨(C5_clean_shutdown Unit sExited reach_sExited).1,
   (C5_clean_shutdown Unit sExited reach_sExited).2 rfl⟩

/-- Modelled from the spec: state of the readiness watch channel created
by `watch::channel(false)` at `main.rs:61` — the current value and
whether the indexer (the sole holder of the sender, `ready_tx`, moved
into `k8s::index` at `main.rs:67-69`) has completed its first
synchronization. The indexer's write behaviour is not in this
repository's source and follows the spec: the value is set to `true`
exactly once, upon completing the first sync. -/
structure ReadyState where
  value : Bool
  syncDone : Bool
deriving DecidableEq, Repr

/-- Initial readiness state: `watch::channel(false)`, no sync yet. -/
def readyInit : ReadyState :=
  ⟨false, false⟩

/-- Modelled from the spec: the only write the readiness channel ever
sees — the single writer (the indexer) flips the value to `true` upon
completing its first synchronization. -/
inductive ReadyStep : ReadyState → ReadyState → Prop where
  | firstSync : ReadyStep ⟨false, false⟩ ⟨true, true⟩

/-- Readiness states reachable from the initial state. -/
inductive ReadyReach : ReadyState → Prop where
  | init : ReadyReach readyInit
  | step {r t : ReadyState} : ReadyReach r → ReadyStep r t → ReadyReach t

/-- C8: the readiness value starts `false` and is `false` in every
reachable state in which the first sync has not completed; it is
monotonic — from any reachable state with value `true`, every state
reachable onwards still has value `true`; and the only write the channel
ever sees is the single writer's one `false → true` transition. -/
theorem C8_readiness (r t : ReadyState) (h : ReadyReach r)
    (ht : Relation.ReflTransGen ReadyStep r t) :
    readyInit.value = false ∧
    (r.syncDone = false → r.value = false) ∧
    (r.value = true → t.value = true) ∧
    (∀ u v : ReadyState, ReadyStep u v →
      u = readyInit ∧ v = ⟨true, true⟩) := by
  have hstates : ∀ x : ReadyState, ReadyReach x → x = readyInit ∨ x = ⟨true, true⟩ := by
    intro x hx
    induction hx with
    | init => exact Or.inl rfl
    | step _ hstep _ =>
      cases hstep
      exact Or.inr rfl
  refine ⟨rfl, ?_, ?_, ?_⟩
  · intro hs
    rcases hstates r h with hr | hr <;> simp [hr, readyInit] at hs ⊢
  · intro hv
    induction ht with
    | refl => exact hv
    | tail _ hstep ih =>
      cases hstep
      rfl
  · intro u v hstep
    cases hstep
    exact ⟨rfl, rfl⟩

/-- C8 witness: the readiness theorem applied to the state after the
first sync, reached by the single write. -/
theorem C8_witness :
    (⟨true, true⟩ : ReadyState).value = true ∧ readyInit.value = false := by
  have h := C8_readiness ⟨true, true⟩ ⟨true, true⟩
    (ReadyReach.step ReadyReach.init ReadyStep.firstSync)
    Relation.ReflTransGen.refl
  exact ⟨h.2.2.1 rfl, h.1⟩

end LinkerdPolicy
